import Mathlib

/-!
Verification development for the rt1_pytorch repository.

The development shallowly embeds the three source files
(`data/step_map_fn.py`, `data/multiple_dataset.py`, `train.py`) at the
level of tensor shapes and dtypes, dictionary schemas, and event traces,
and proves the specified properties about the embedded definitions.

Tensor-library calls (cast, reshape, resize-with-pad, transpose) are
modelled as shape/dtype transformers with the documented library
semantics; training dynamics are modelled as event traces of the loop in
`Trainer.train`.
-/

/-- Element dtypes of the tensors handled by the pipeline. -/
inductive DType where
  | float32
  | float64
  | uint8
  | int32
  | int64
  | boolean
deriving DecidableEq, Repr

/-- A tensor, embedded at the schema level: its shape and its dtype. -/
structure Tensor where
  shape : List Nat
  dtype : DType
deriving DecidableEq, Repr

/-- Model of `tf.cast`: the dtype changes, the shape is preserved. -/
def tf_cast (t : Tensor) (d : DType) : Tensor :=
  ⟨t.shape, d⟩

/-- Model of `tf.reshape`: succeeds exactly when the element count is
preserved; the dtype is unchanged (no cast is performed). -/
def tf_reshape (t : Tensor) (s : List Nat) : Option Tensor :=
  if t.shape.prod = s.prod then some ⟨s, t.dtype⟩ else none

/-- Model of `tf.image.resize_with_pad` on a rank-3 image `[H, W, C]`:
the result has shape `[target_height, target_width, C]` and dtype
float32 (bilinear resize returns floats). Non-rank-3 inputs are
rejected. -/
def resize_with_pad (t : Tensor) (target_height target_width : Nat) : Option Tensor :=
  match t.shape with
  | [_, _, c] => some ⟨[target_height, target_width, c], DType.float32⟩
  | _ => none

/-- Model of `tf.transpose`: `perm` must be a permutation of the axis
indices; the output shape is the input shape re-indexed by `perm`. -/
def tf_transpose (t : Tensor) (perm : List Nat) : Option Tensor :=
  if perm.length = t.shape.length ∧ (List.range t.shape.length).all (fun i => perm.contains i) ∧ perm.Nodup then
    some ⟨perm.map (fun i => t.shape.getD i 0), t.dtype⟩
  else none

/-- `TARGET_WIDTH` from `data/step_map_fn.py`. -/
def TARGET_WIDTH : Nat := 160

/-- `TARGET_HEIGHT` from `data/step_map_fn.py`. -/
def TARGET_HEIGHT : Nat := 128

/-- A native dataset step: an observation image, a language embedding,
a dictionary of native action fields, and the three episode flags. -/
structure Step where
  image : Tensor
  natural_language_embedding : Tensor
  action : List (String × Tensor)
  is_first : Bool
  is_last : Bool
  is_terminal : Bool
deriving DecidableEq, Repr

/-- The common transformed step produced by every step-mapper: the
field names of the output schema are fixed by this structure. -/
structure TransformedStep where
  image : Tensor
  natural_language_embedding : Tensor
  first_three : Tensor
  middle_three : Tensor
  final_one : Tensor
  is_first : Bool
  is_last : Bool
  is_terminal : Bool
deriving DecidableEq, Repr

/-- The image pipeline shared by all four mappers: resize-with-pad to
`TARGET_HEIGHT × TARGET_WIDTH`, cast to uint8, transpose to `[2, 0, 1]`. -/
def map_image (img : Tensor) : Option Tensor :=
  match resize_with_pad img TARGET_HEIGHT TARGET_WIDTH with
  | none => none
  | some resized => tf_transpose (tf_cast resized DType.uint8) [2, 0, 1]

/-- Embedding of `jaco_step_map_fn` from `data/step_map_fn.py`:
`first_three := cast(world_vector, float32)`,
`middle_three := cast(terminate_episode, float32)`,
`final_one := cast(gripper_closedness_action, float32)`. -/
def jaco_step_map_fn (step : Step) : Option TransformedStep :=
  match map_image step.image with
  | none => none
  | some img =>
    match step.action.lookup "world_vector",
          step.action.lookup "terminate_episode",
          step.action.lookup "gripper_closedness_action" with
    | some wv, some te, some gc =>
      some ⟨img, step.natural_language_embedding,
            tf_cast wv DType.float32, tf_cast te DType.float32, tf_cast gc DType.float32,
            step.is_first, step.is_last, step.is_terminal⟩
    | _, _, _ => none

/-- Embedding of `berkeley_cable_routing_step_map_fn` from
`data/step_map_fn.py`: `first_three := cast(world_vector, float32)`,
`middle_three := cast(rotation_delta, float32)`,
`final_one := reshape(terminate_episode, [1])` (note: no cast). -/
def berkeley_cable_routing_step_map_fn (step : Step) : Option TransformedStep :=
  match map_image step.image with
  | none => none
  | some img =>
    match step.action.lookup "world_vector",
          step.action.lookup "rotation_delta",
          step.action.lookup "terminate_episode" with
    | some wv, some rd, some te =>
      match tf_reshape te [1] with
      | none => none
      | some fin =>
        some ⟨img, step.natural_language_embedding,
              tf_cast wv DType.float32, tf_cast rd DType.float32, fin,
              step.is_first, step.is_last, step.is_terminal⟩
    | _, _, _ => none

/-- Embedding of `bridge_step_map_fn` from `data/step_map_fn.py`:
`first_three := cast(world_vector, float32)`,
`middle_three := cast(rotation_delta, float32)`,
`final_one := cast(open_gripper, float32)`. -/
def bridge_step_map_fn (step : Step) : Option TransformedStep :=
  match map_image step.image with
  | none => none
  | some img =>
    match step.action.lookup "world_vector",
          step.action.lookup "rotation_delta",
          step.action.lookup "open_gripper" with
    | some wv, some rd, some og =>
      some ⟨img, step.natural_language_embedding,
            tf_cast wv DType.float32, tf_cast rd DType.float32, tf_cast og DType.float32,
            step.is_first, step.is_last, step.is_terminal⟩
    | _, _, _ => none

/-- Embedding of `toto_step_map_fn` from `data/step_map_fn.py`: same
field selection as `bridge_step_map_fn`. -/
def toto_step_map_fn (step : Step) : Option TransformedStep :=
  match map_image step.image with
  | none => none
  | some img =>
    match step.action.lookup "world_vector",
          step.action.lookup "rotation_delta",
          step.action.lookup "open_gripper" with
    | some wv, some rd, some og =>
      some ⟨img, step.natural_language_embedding,
            tf_cast wv DType.float32, tf_cast rd DType.float32, tf_cast og DType.float32,
            step.is_first, step.is_last, step.is_terminal⟩
    | _, _, _ => none

/-- The action-schema triple (shape, dtype of each action group) of a
transformed step. -/
def actionTriple (o : TransformedStep) : Tensor × Tensor × Tensor :=
  (o.first_three, o.middle_three, o.final_one)

/-- A value stored in a trajectory item: either a tensor entry or a
nested dictionary of tensors (the `observation` / `action` groups). -/
inductive EntryVal where
  | leaf (t : Tensor)
  | dict (m : List (String × Tensor))
deriving DecidableEq, Repr

/-- One item of a trajectory dataset: a string-keyed dictionary. -/
def Item : Type := List (String × EntryVal)

/-- A trajectory dataset, as consumed by `CombinedDataset`: an
unbounded stream of items. -/
structure TrajDataset where
  stream : Nat → Item

/-- A dataset trajectory transform, as consulted by
`CombinedDataset.__init__`: it carries the expected tensor spec of the
items the transform produces. -/
structure Transform where
  expected_tensor_spec : List (String × Tensor)
deriving DecidableEq, Repr

/-- Modelled from the spec: `tf.data.Dataset.sample_from_datasets`
produces a merged stream that probabilistically interleaves the given
source datasets; the probabilistic choice is modelled as deterministic
round-robin interleaving. -/
def sample_from_datasets (ds : List TrajDataset) : Nat → Item :=
  fun n =>
    match h : ds.length with
    | 0 => []
    | Nat.succ m => (ds.get ⟨n % (m + 1), by rw [h]; exact Nat.mod_lt n (Nat.succ_pos m)⟩).stream (n / (m + 1))

/-- `builder_dir_list` from `CombinedDataset.__init__`. -/
def builder_dir_list : List String :=
  ["gs://gresearch/robotics/toto/0.1.0", "gs://gresearch/robotics/bridge/0.1.0"]

/-- `dataset_name_list` from `CombinedDataset.__init__`. -/
def dataset_name_list : List String :=
  ["toto", "bridge"]

/-- The state held by a constructed `CombinedDataset`: the source
datasets handed to `sample_from_datasets`, the merged-stream iterator,
and its cursor. -/
structure CombinedState where
  sources : List TrajDataset
  it : Nat → Item
  cursor : Nat

/-- The body of `CombinedDataset.__init__` after the build loop: take
the first transform as template, assert every transform's expected
tensor spec equals the template's, then build the merged stream from
exactly the trajectory datasets. `none` models a raised exception. -/
def initFromBuilds (built : List (TrajDataset × Transform)) : Option CombinedState :=
  match built.map Prod.snd with
  | [] => none
  | template :: rest =>
    if (template :: rest).all
        (fun t => t.expected_tensor_spec = template.expected_tensor_spec) then
      some ⟨built.map Prod.fst, sample_from_datasets (built.map Prod.fst), 0⟩
    else none

/-- Embedding of `CombinedDataset.__init__`, parameterised by
`build_dataset` (defined in `data/data_loader.py`, which is not part of
the sources; modelled from the spec as a function from dataset name,
builder directory and trajectory length to a trajectory dataset and its
transform). The loop enumerates `builder_dir_list` and pairs each entry
with `dataset_name_list` at the same index. -/
def CombinedDataset.init
    (build_dataset : String → String → Nat → TrajDataset × Transform)
    (time_sequence_length : Nat) : Option CombinedState :=
  initFromBuilds
    ((dataset_name_list.zip builder_dir_list).map
      (fun p => build_dataset p.1 p.2 time_sequence_length))

/-- Embedding of `CombinedDataset.__len__`: the constant `int(1e8)`. -/
def CombinedDataset.combined_len (_d : CombinedState) : Nat := 100000000

/-- A tensor converted to the torch framework. -/
structure TorchTensor where
  val : Tensor
deriving DecidableEq, Repr

/-- Modelled from the spec: `tf_to_torch` (defined in
`data/data_loader.py`, which is not part of the sources) converts one
framework tensor to a torch tensor, preserving its contents. -/
def tf_to_torch (t : Tensor) : TorchTensor := ⟨t⟩

/-- A converted trajectory item value. -/
inductive TorchEntry where
  | leaf (t : TorchTensor)
  | dict (m : List (String × TorchTensor))
deriving DecidableEq, Repr

/-- The conversion loop of `CombinedDataset.__getitem__`: every leaf
tensor, including those in nested dictionaries, goes through
`tf_to_torch`. -/
def convertItem (it : Item) : List (String × TorchEntry) :=
  it.map (fun kv =>
    match kv.2 with
    | EntryVal.leaf t => (kv.1, TorchEntry.leaf (tf_to_torch t))
    | EntryVal.dict m => (kv.1, TorchEntry.dict (m.map (fun kv2 => (kv2.1, tf_to_torch kv2.2)))))

/-- Embedding of `CombinedDataset.__getitem__`: the index argument is
never consulted; the item is `next(self.combined_dataset_it)` converted
through `tf_to_torch`. The returned pair is the item together with the
advanced iterator state. -/
def CombinedDataset.getitem (d : CombinedState) (_idx : Nat) :
    (List (String × TorchEntry)) × CombinedState :=
  (convertItem (d.it d.cursor), ⟨d.sources, d.it, d.cursor + 1⟩)

/-- An abstract serialized state dictionary (model, optimizer or
scheduler state), embedded as a flat key-value store. -/
def StateDict : Type := List (String × Int)

/-- A value of the checkpoint bundle: either a nested state dictionary
or the integer epoch index. -/
inductive CkptVal where
  | sd (s : List (String × Int))
  | ep (n : Nat)
deriving DecidableEq, Repr

/-- The checkpoint bundle built in `Trainer.train` before
`save_on_master`: exactly the four keys, in source order, with the
current epoch index under `epoch`. -/
def mkCheckpoint (model_sd opt_sd sched_sd : List (String × Int)) (e : Nat) :
    List (String × CkptVal) :=
  [("model_state_dict", CkptVal.sd model_sd),
   ("optimizer_state_dict", CkptVal.sd opt_sd),
   ("scheduler_state_dict", CkptVal.sd sched_sd),
   ("epoch", CkptVal.ep e)]

/-- A model replica, carrying its state dictionary. -/
structure NetworkM where
  sd : List (String × Int)
deriving DecidableEq, Repr

/-- An optimizer, carrying its state dictionary. -/
structure OptimizerM where
  sd : List (String × Int)
deriving DecidableEq, Repr

/-- A learning-rate scheduler, carrying its state dictionary. -/
structure SchedulerM where
  sd : List (String × Int)
deriving DecidableEq, Repr

/-- Modelled from the spec: the torch `load_state_dict` /
`state_dict` round trip restores exactly the serialized state. -/
def OptimizerM.load_state_dict (_o : OptimizerM) (s : List (String × Int)) : OptimizerM := ⟨s⟩

/-- The optimizer state as serialized into a checkpoint. -/
def OptimizerM.state_dict (o : OptimizerM) : List (String × Int) := o.sd

/-- Modelled from the spec: scheduler state round trip, as for the
optimizer. -/
def SchedulerM.load_state_dict (_s : SchedulerM) (s : List (String × Int)) : SchedulerM := ⟨s⟩

/-- The scheduler state as serialized into a checkpoint. -/
def SchedulerM.state_dict (s : SchedulerM) : List (String × Int) := s.sd

/-- Modelled from the spec: network state round trip. -/
def NetworkM.load_state_dict (_n : NetworkM) (s : List (String × Int)) : NetworkM := ⟨s⟩

/-- The network state as serialized into a checkpoint. -/
def NetworkM.state_dict (n : NetworkM) : List (String × Int) := n.sd

/-- The resume block of `Trainer.train`: read the three state
dictionaries out of the loaded checkpoint and load them into the
network, optimizer and scheduler. A missing or mis-typed key models the
`KeyError` / load failure of the original. -/
def resume_load (ckpt : List (String × CkptVal))
    (net : NetworkM) (opt : OptimizerM) (sch : SchedulerM) :
    Option (NetworkM × OptimizerM × SchedulerM) :=
  match ckpt.lookup "model_state_dict",
        ckpt.lookup "optimizer_state_dict",
        ckpt.lookup "scheduler_state_dict" with
  | some (CkptVal.sd m), some (CkptVal.sd o), some (CkptVal.sd s) =>
    some (net.load_state_dict m, opt.load_state_dict o, sch.load_state_dict s)
  | _, _, _ => none

/-- `epoch_start = checkpoint["epoch"] if self.args["resume"] else 0`,
with `ckptEpoch` the epoch value read from the loaded checkpoint. -/
def epoch_start (resume : Bool) (ckptEpoch : Nat) : Nat :=
  if resume then ckptEpoch else 0

/-- Python `range(a, b)` over naturals. -/
def pyRange (a b : Nat) : List Nat := List.range' a (b - a)

/-- The epoch indices iterated by the loop
`for e in range(epoch_start, self.args["epochs"])`. -/
def epochsIterated (resume : Bool) (ckptEpoch epochs : Nat) : List Nat :=
  pyRange (epoch_start resume ckptEpoch) epochs

/-- Observable events of one training run, one process. -/
inductive Ev where
  | batch (e i : Nat)
  | logScalar (tag : String) (e : Nat)
  | save (path : String) (ckpt : List (String × CkptVal))
  | barrier (e : Nat)
  | sched (e : Nat)
deriving DecidableEq, Repr

/-- Whether an event is a barrier synchronization. -/
def Ev.isBarrier : Ev → Bool
  | Ev.barrier _ => true
  | _ => false

/-- The events of the inner batch loop of epoch `e` with `nb` batches:
one training step per batch, followed by the three scalar logs
(`loss_ce`, `epoch`, `lr`) guarded by `utils.is_main_process()`
(modelled from the spec: true exactly on the elected main process). -/
def batchTrace (isMain : Bool) (e nb : Nat) : List Ev :=
  (List.range nb).flatMap (fun i =>
    Ev.batch e i ::
      (if isMain then [Ev.logScalar "loss_ce" e, Ev.logScalar "epoch" e, Ev.logScalar "lr" e]
       else []))

/-- The checkpoint file path `os.path.join(checkpoint_dir, str(e) +
"-checkpoint.pth")` with `checkpoint_dir = os.path.join(log_dir,
train_name)` from `Trainer.make_log_dir`. -/
def ckptPath (log_dir run_id : String) (e : Nat) : String :=
  log_dir ++ "/" ++ run_id ++ "/" ++ toString e ++ "-checkpoint.pth"

/-- The events of one iteration of the epoch loop of `Trainer.train`:
the batch loop, then — only when `(e + 1) % val_interval == 0` — the
checkpoint write (`utils.save_on_master`, modelled from the spec as
writing only on the main process) followed, in distributed mode, by the
two barrier calls; finally `scheduler.step()`. `mS`, `oS`, `sS` give
the model / optimizer / scheduler state dictionaries as of epoch `e`. -/
def epochTrace (dist isMain : Bool) (vi nb : Nat) (log_dir run_id : String)
    (mS oS sS : Nat → List (String × Int)) (e : Nat) : List Ev :=
  batchTrace isMain e nb ++
    ((if (e + 1) % vi = 0 then
        (if isMain then [Ev.save (ckptPath log_dir run_id e) (mkCheckpoint (mS e) (oS e) (sS e) e)]
         else []) ++
          (if dist then [Ev.barrier e, Ev.barrier e] else [])
      else []) ++ [Ev.sched e])

/-- The full event trace of `Trainer.train` on one process. -/
def trainTrace (dist isMain : Bool) (vi nb : Nat) (log_dir run_id : String)
    (mS oS sS : Nat → List (String × Int))
    (resume : Bool) (ckptEpoch epochs : Nat) : List Ev :=
  (epochsIterated resume ckptEpoch epochs).flatMap
    (epochTrace dist isMain vi nb log_dir run_id mS oS sS)

/-- A tensor with contents, for the timestep-slicing helper: a shape
and flat row-major data. -/
structure TT where
  shape : List Nat
  data : List Int
deriving DecidableEq, Repr

/-- Torch indexing `v[:, idx]`: defined for tensors of rank at least 2
with `idx` within the second axis; the second axis is removed and, for
each leading index `j` and trailing offset `r`, the element at flat
position `(j * d1 + idx) * prod rest + r` is selected. -/
def index_second_axis (t : TT) (idx : Nat) : Option TT :=
  match t.shape with
  | d0 :: d1 :: rest =>
    if idx < d1 then
      some ⟨d0 :: rest,
        (List.range d0).flatMap (fun j =>
          (List.range rest.prod).map (fun r =>
            t.data.getD ((j * d1 + idx) * rest.prod + r) 0))⟩
    else none
  | _ => none

/-- Embedding of `Trainer.retrieve_single_timestep`: a deep copy of the
dictionary in which every value `v` is replaced by `v[:, idx]`. `none`
models the exception raised when some value cannot be indexed at
`[:, idx]`. -/
def retrieve_single_timestep (dict_obj : List (String × TT)) (idx : Nat) :
    Option (List (String × TT)) :=
  dict_obj.mapM (fun kv => (index_second_axis kv.2 idx).map (fun t => (kv.1, t)))

/-- Head of a `List.range'`. -/
theorem range'_head? (a n : Nat) :
    (List.range' a n).head? = if 0 < n then some a else none := by
  cases n <;> simp [List.range']

/-- Claim C9: `CombinedDataset.__len__` always returns the constant
sentinel `10^8` regardless of the underlying sources, and
`CombinedDataset.__getitem__(idx)` does not depend on `idx`: in the same
iterator state any two indices yield the same result, namely the next
element of the internal combined-stream iterator (converted through
`tf_to_torch`), with the cursor advanced by one. -/
theorem combined_len_constant_and_getitem_ignores_index :
    ∀ (d : CombinedState) (i j : Nat),
      CombinedDataset.combined_len d = 100000000 ∧
      CombinedDataset.getitem d i = CombinedDataset.getitem d j ∧
      (CombinedDataset.getitem d i).1 = convertItem (d.it d.cursor) ∧
      (CombinedDataset.getitem d i).2.cursor = d.cursor + 1 := by
  intro d i j
  exact ⟨rfl, rfl, rfl, rfl⟩

/-- Claim C10: `CombinedDataset.__init__` builds exactly the two
hard-coded sources `toto` and `bridge` at their fixed builder
directories, for every value of `time_sequence_length`; the only
constructor argument is `time_sequence_length`, so the set of sources is
not configurable. -/
theorem combined_sources_hard_coded :
    dataset_name_list = ["toto", "bridge"] ∧
    builder_dir_list =
      ["gs://gresearch/robotics/toto/0.1.0", "gs://gresearch/robotics/bridge/0.1.0"] ∧
    ∀ (build : String → String → Nat → TrajDataset × Transform) (tsl : Nat),
      CombinedDataset.init build tsl =
        initFromBuilds
          [build "toto" "gs://gresearch/robotics/toto/0.1.0" tsl,
           build "bridge" "gs://gresearch/robotics/bridge/0.1.0" tsl] := by
  exact ⟨rfl, rfl, fun build tsl => rfl⟩

/-- Claim C6: without resume the epoch loop starts at epoch 0 and runs
over `range(epochs)`; with resume it runs over `range(ckptEpoch,
epochs)`, starting directly at the stored epoch; in both cases every
iterated epoch index is below the configured epoch count and the loop
is finite (terminal). -/
theorem epoch_loop_range :
    ∀ (r : Bool) (c E : Nat),
      epochsIterated false c E = List.range E ∧
      epochsIterated true c E = List.range' c (E - c) ∧
      (epochsIterated r c E).all (fun e => decide (e < E)) = true ∧
      (epochsIterated r c E).head? =
        (if epoch_start r c < E then some (epoch_start r c) else none) := by
  intro r c E
  refine ⟨?_, ?_, ?_, ?_⟩
  · simp [epochsIterated, pyRange, epoch_start]
    exact (List.range_eq_range' E).symm
  · rfl
  · simp only [epochsIterated, pyRange, List.all_eq_true, decide_eq_true_eq]
    intro e he
    rw [List.mem_range'_1] at he
    omega
  · rw [epochsIterated, pyRange, range'_head?]
    by_cases h : epoch_start r c < E
    · rw [if_pos h, if_pos (by omega)]
    · rw [if_neg h, if_neg (by omega)]

/-- Claim C7: loading the state dictionaries from a checkpoint saved at
epoch `E` and immediately building a new checkpoint bundle, before any
training step, reproduces optimizer and scheduler state identical to
the original checkpoint's entries. -/
theorem resume_then_checkpoint_round_trip :
    ∀ (m o s : List (String × Int)) (E e2 : Nat)
      (net : NetworkM) (opt : OptimizerM) (sch : SchedulerM),
      ∃ net2 opt2 sch2,
        resume_load (mkCheckpoint m o s E) net opt sch = some (net2, opt2, sch2) ∧
        opt2.state_dict = o ∧
        sch2.state_dict = s ∧
        (mkCheckpoint net2.state_dict opt2.state_dict sch2.state_dict e2).lookup
            "optimizer_state_dict" =
          (mkCheckpoint m o s E).lookup "optimizer_state_dict" ∧
        (mkCheckpoint net2.state_dict opt2.state_dict sch2.state_dict e2).lookup
            "scheduler_state_dict" =
          (mkCheckpoint m o s E).lookup "scheduler_state_dict" := by
  intro m o s E e2 net opt sch
  exact ⟨⟨m⟩, ⟨o⟩, ⟨s⟩, rfl, rfl, rfl, rfl, rfl⟩

/-- Claim C2: `CombinedDataset` construction raises if and only if some
source's expected tensor spec differs from the first source's; when all
sources share an identical expected tensor spec, construction succeeds
and the merged stream is built from exactly those source datasets. -/
theorem combined_init_fails_iff_spec_mismatch :
    ∀ (build : String → String → Nat → TrajDataset × Transform) (tsl : Nat),
      (CombinedDataset.init build tsl = none ↔
        ∃ t ∈ [(build "toto" "gs://gresearch/robotics/toto/0.1.0" tsl).2,
               (build "bridge" "gs://gresearch/robotics/bridge/0.1.0" tsl).2],
          t.expected_tensor_spec ≠
            (build "toto" "gs://gresearch/robotics/toto/0.1.0" tsl).2.expected_tensor_spec) ∧
      ((∀ t ∈ [(build "toto" "gs://gresearch/robotics/toto/0.1.0" tsl).2,
               (build "bridge" "gs://gresearch/robotics/bridge/0.1.0" tsl).2],
          t.expected_tensor_spec =
            (build "toto" "gs://gresearch/robotics/toto/0.1.0" tsl).2.expected_tensor_spec) →
        CombinedDataset.init build tsl =
          some ⟨[(build "toto" "gs://gresearch/robotics/toto/0.1.0" tsl).1,
                 (build "bridge" "gs://gresearch/robotics/bridge/0.1.0" tsl).1],
                sample_from_datasets
                  [(build "toto" "gs://gresearch/robotics/toto/0.1.0" tsl).1,
                   (build "bridge" "gs://gresearch/robotics/bridge/0.1.0" tsl).1],
                0⟩) := by
  intro build tsl
  set b0 := build "toto" "gs://gresearch/robotics/toto/0.1.0" tsl with hb0
  set b1 := build "bridge" "gs://gresearch/robotics/bridge/0.1.0" tsl with hb1
  have hinit : CombinedDataset.init build tsl = initFromBuilds [b0, b1] := rfl
  rw [hinit]
  by_cases h : b1.2.expected_tensor_spec = b0.2.expected_tensor_spec
  · constructor
    · simp [initFromBuilds, h]
    · intro _
      simp [initFromBuilds, h]
  · constructor
    · simp [initFromBuilds, h]
    · intro hall
      exact absurd (hall b1.2 (by simp)) h

/-- Witness for claim C2: with a concrete builder whose two sources
share the (empty) expected tensor spec, construction succeeds and keeps
exactly those two sources. -/
theorem combined_init_fails_iff_spec_mismatch_witness :
    CombinedDataset.init (fun _ _ _ => (⟨fun _ => []⟩, ⟨[]⟩)) 6 =
      some ⟨[⟨fun _ => []⟩, ⟨fun _ => []⟩],
            sample_from_datasets [⟨fun _ => []⟩, ⟨fun _ => []⟩], 0⟩ :=
  (combined_init_fails_iff_spec_mismatch (fun _ _ _ => (⟨fun _ => []⟩, ⟨[]⟩)) 6).2 (by simp)

/-- Claim C8: for a dictionary whose values all have time-sequence
length `T` along their second axis and an index `i < T`,
`retrieve_single_timestep` returns a dictionary with the same keys in
which every value `v` is replaced by `v[:, i]`: the time axis is
removed and all other axes are unchanged. -/
theorem retrieve_single_timestep_slices_second_axis :
    ∀ (d : List (String × TT)) (T i : Nat),
      (∀ kv ∈ d, kv.2.shape.get? 1 = some T) →
      i < T →
      ∃ d2, retrieve_single_timestep d i = some d2 ∧
        d2.map Prod.fst = d.map Prod.fst ∧
        List.Forall₂ (fun kv kv2 => kv2.1 = kv.1 ∧
          index_second_axis kv.2 i = some kv2.2 ∧
          kv2.2.shape = kv.2.shape.eraseIdx 1) d d2 := by
  intro d T i hshape hi
  induction d with
  | nil => exact ⟨[], rfl, rfl, List.Forall₂.nil⟩
  | cons kv rest ih =>
    obtain ⟨k, tt⟩ := kv
    obtain ⟨sh, dat⟩ := tt
    have hkv : sh.get? 1 = some T := hshape (k, ⟨sh, dat⟩) (List.mem_cons_self _ rest)
    obtain ⟨d2r, hmap, hkeys, hfa⟩ := ih (fun x hx => hshape x (List.mem_cons_of_mem _ hx))
    obtain ⟨d0, d1, rst, hsh⟩ : ∃ d0 d1 rst, sh = d0 :: d1 :: rst := by
      rcases hs : sh with _ | ⟨a, _ | ⟨b, l⟩⟩
      · rw [hs] at hkv; simp at hkv
      · rw [hs] at hkv; simp at hkv
      · exact ⟨a, b, l, rfl⟩
    subst hsh
    have hd1 : d1 = T := by simpa using hkv
    have hi2 : i < d1 := by omega
    obtain ⟨u, hidx, hush⟩ : ∃ u, index_second_axis ⟨d0 :: d1 :: rst, dat⟩ i = some u ∧
        u.shape = d0 :: rst := by
      refine ⟨⟨d0 :: rst,
        (List.range d0).flatMap (fun j =>
          (List.range rst.prod).map (fun r =>
            dat.getD ((j * d1 + i) * rst.prod + r) 0))⟩, ?_, rfl⟩
      simp [index_second_axis, hi2]
    refine ⟨(k, u) :: d2r, ?_, ?_, ?_⟩
    · rw [retrieve_single_timestep] at hmap ⊢
      rw [List.mapM_cons, hidx]
      simp only [Option.map_some]
      rw [hmap]
      rfl
    · simpa using hkeys
    · exact List.Forall₂.cons ⟨rfl, hidx, by rw [hush]; rfl⟩ hfa

/-- Witness for claim C8: a concrete two-key batch dictionary with
time-sequence length 3, sliced at index 1. -/
theorem retrieve_single_timestep_slices_second_axis_witness :
    (∀ kv ∈ ([("a", ⟨[2, 3], [10, 11, 12, 20, 21, 22]⟩),
              ("b", ⟨[1, 3, 2], [1, 2, 3, 4, 5, 6]⟩)] : List (String × TT)),
      kv.2.shape.get? 1 = some 3) ∧
    1 < 3 ∧
    (∃ d2, retrieve_single_timestep
        ([("a", ⟨[2, 3], [10, 11, 12, 20, 21, 22]⟩),
          ("b", ⟨[1, 3, 2], [1, 2, 3, 4, 5, 6]⟩)] : List (String × TT)) 1 = some d2 ∧
      d2.map Prod.fst =
        ([("a", ⟨[2, 3], [10, 11, 12, 20, 21, 22]⟩),
          ("b", ⟨[1, 3, 2], [1, 2, 3, 4, 5, 6]⟩)] : List (String × TT)).map Prod.fst ∧
      List.Forall₂ (fun kv kv2 => kv2.1 = kv.1 ∧
        index_second_axis kv.2 1 = some kv2.2 ∧
        kv2.2.shape = kv.2.shape.eraseIdx 1)
        ([("a", ⟨[2, 3], [10, 11, 12, 20, 21, 22]⟩),
          ("b", ⟨[1, 3, 2], [1, 2, 3, 4, 5, 6]⟩)] : List (String × TT)) d2) :=
  ⟨by decide, by decide,
    retrieve_single_timestep_slices_second_axis
      [("a", ⟨[2, 3], [10, 11, 12, 20, 21, 22]⟩),
       ("b", ⟨[1, 3, 2], [1, 2, 3, 4, 5, 6]⟩)] 3 1 (by decide) (by decide)⟩

/-- Reduction of the shared image pipeline on a rank-3 image: the
result is the channel-first uint8 image at the target resolution. -/
theorem map_image_eq (H W C : Nat) (dt : DType) :
    map_image ⟨[H, W, C], dt⟩ = some ⟨[C, TARGET_HEIGHT, TARGET_WIDTH], DType.uint8⟩ := rfl

/-- The image/passthrough contract of a mapped step: channel-first
uint8 image of shape `[C, 128, 160]` obtained through the
resize-with-pad / cast / transpose pipeline, with the language
embedding and the three episode flags passed through unchanged. -/
def mappedOk (step : Step) (C : Nat) (out : TransformedStep) : Prop :=
  out.image = ⟨[C, TARGET_HEIGHT, TARGET_WIDTH], DType.uint8⟩ ∧
  map_image step.image = some out.image ∧
  out.natural_language_embedding = step.natural_language_embedding ∧
  out.is_first = step.is_first ∧
  out.is_last = step.is_last ∧
  out.is_terminal = step.is_terminal

/-- Claim C3: for every source step-mapper and every input step whose
observation image has shape `(H, W, C)`, the output observation image
is the input image resized-with-padding to height 128 and width 160,
cast to uint8 and transposed to channel-first layout, so of shape
`(C, 128, 160)`; the language embedding and the `is_first`, `is_last`,
`is_terminal` flags are passed through unchanged. -/
theorem step_map_fn_image_resize_and_passthrough :
    ∀ (step : Step) (H W C : Nat),
      step.image.shape = [H, W, C] →
      (∀ out, jaco_step_map_fn step = some out → mappedOk step C out) ∧
      (∀ out, berkeley_cable_routing_step_map_fn step = some out → mappedOk step C out) ∧
      (∀ out, bridge_step_map_fn step = some out → mappedOk step C out) ∧
      (∀ out, toto_step_map_fn step = some out → mappedOk step C out) := by
  intro step H W C h
  obtain ⟨img, nle, act, b1, b2, b3⟩ := step
  obtain ⟨sh, dt⟩ := img
  have hsh : sh = [H, W, C] := by simpa using h
  subst hsh
  refine ⟨?_, ?_, ?_, ?_⟩
  · intro out hout
    cases hwv : act.lookup "world_vector" <;>
      cases hte : act.lookup "terminate_episode" <;>
        cases hgc : act.lookup "gripper_closedness_action" <;>
          simp only [jaco_step_map_fn, map_image_eq, hwv, hte, hgc,
            Option.some.injEq, reduceCtorEq] at hout
    subst hout
    exact ⟨rfl, map_image_eq H W C dt, rfl, rfl, rfl, rfl⟩
  · intro out hout
    cases hwv : act.lookup "world_vector" <;>
      cases hrd : act.lookup "rotation_delta" <;>
        cases hte : act.lookup "terminate_episode" <;>
          simp only [berkeley_cable_routing_step_map_fn, map_image_eq, hwv, hrd, hte,
            Option.some.injEq, reduceCtorEq] at hout
    rename_i wv rd te
    cases hre : tf_reshape te [1] <;> simp only [hre, Option.some.injEq, reduceCtorEq] at hout
    subst hout
    exact ⟨rfl, map_image_eq H W C dt, rfl, rfl, rfl, rfl⟩
  · intro out hout
    cases hwv : act.lookup "world_vector" <;>
      cases hrd : act.lookup "rotation_delta" <;>
        cases hog : act.lookup "open_gripper" <;>
          simp only [bridge_step_map_fn, map_image_eq, hwv, hrd, hog,
            Option.some.injEq, reduceCtorEq] at hout
    subst hout
    exact ⟨rfl, map_image_eq H W C dt, rfl, rfl, rfl, rfl⟩
  · intro out hout
    cases hwv : act.lookup "world_vector" <;>
      cases hrd : act.lookup "rotation_delta" <;>
        cases hog : act.lookup "open_gripper" <;>
          simp only [toto_step_map_fn, map_image_eq, hwv, hrd, hog,
            Option.some.injEq, reduceCtorEq] at hout
    subst hout
    exact ⟨rfl, map_image_eq H W C dt, rfl, rfl, rfl, rfl⟩

/-- A concrete jaco-schema step used in witnesses. -/
def sampleJacoStep : Step :=
  ⟨⟨[4, 6, 3], DType.uint8⟩, ⟨[512], DType.float32⟩,
   [("world_vector", ⟨[3], DType.float64⟩), ("terminate_episode", ⟨[3], DType.int32⟩),
    ("gripper_closedness_action", ⟨[1], DType.float32⟩)], true, false, false⟩

/-- A concrete berkeley-cable-routing-schema step used in witnesses. -/
def sampleBerkeleyStep : Step :=
  ⟨⟨[7, 5, 3], DType.uint8⟩, ⟨[512], DType.float32⟩,
   [("world_vector", ⟨[3], DType.float32⟩), ("rotation_delta", ⟨[3], DType.float32⟩),
    ("terminate_episode", ⟨[], DType.float32⟩)], false, false, false⟩

/-- A concrete bridge-schema step used in witnesses. -/
def sampleBridgeStep : Step :=
  ⟨⟨[4, 6, 3], DType.uint8⟩, ⟨[512], DType.float32⟩,
   [("world_vector", ⟨[3], DType.float32⟩), ("rotation_delta", ⟨[3], DType.float64⟩),
    ("open_gripper", ⟨[1], DType.boolean⟩)], false, true, true⟩

/-- A concrete toto-schema step used in witnesses. -/
def sampleTotoStep : Step :=
  ⟨⟨[4, 6, 3], DType.uint8⟩, ⟨[512], DType.float32⟩,
   [("world_vector", ⟨[3], DType.float32⟩), ("rotation_delta", ⟨[3], DType.float32⟩),
    ("open_gripper", ⟨[1], DType.boolean⟩)], false, false, true⟩

/-- Witness for claim C3: the jaco mapper on a concrete 4×6×3 image. -/
theorem step_map_fn_image_resize_and_passthrough_witness :
    sampleJacoStep.image.shape = [4, 6, 3] ∧
    ((∀ out, jaco_step_map_fn sampleJacoStep = some out → mappedOk sampleJacoStep 3 out) ∧
     (∀ out, berkeley_cable_routing_step_map_fn sampleJacoStep = some out →
        mappedOk sampleJacoStep 3 out) ∧
     (∀ out, bridge_step_map_fn sampleJacoStep = some out → mappedOk sampleJacoStep 3 out) ∧
     (∀ out, toto_step_map_fn sampleJacoStep = some out → mappedOk sampleJacoStep 3 out)) :=
  ⟨by decide, step_map_fn_image_resize_and_passthrough sampleJacoStep 4 6 3 (by decide)⟩

/-- The shape of a named action field of a native step, when present. -/
def fieldShape (a : List (String × Tensor)) (k : String) : Option (List Nat) :=
  (a.lookup k).map Tensor.shape

/-- Counterexample for claim C1 as stated: the berkeley-cable-routing
mapper reshapes `terminate_episode` without casting it, so on a native
step whose designated fields have the native shapes (`world_vector` and
`rotation_delta` of shape `(3,)`, scalar `terminate_episode`) but whose
`terminate_episode` dtype is not float32, the mapped `final_one` group
is not a float32 tensor. -/
theorem step_map_fn_uniform_action_schema_cex :
    (berkeley_cable_routing_step_map_fn
      ⟨⟨[7, 5, 3], DType.uint8⟩, ⟨[512], DType.float32⟩,
       [("world_vector", ⟨[3], DType.float32⟩), ("rotation_delta", ⟨[3], DType.float32⟩),
        ("terminate_episode", ⟨[], DType.int64⟩)], false, false, false⟩).map
        (fun o => o.final_one.dtype) = some DType.int64 ∧
    DType.int64 ≠ DType.float32 := by decide

/-- Claim C1 (amended): given native steps whose designated action
fields carry the native shapes (`(3,)` for the first two groups'
sources, size-one for the final group's source) and — for
berkeley-cable-routing, whose `terminate_episode` is reshaped without a
cast — native dtype float32, every mapper's output action groups
`first_three`, `middle_three`, `final_one` are float32 tensors of
shapes `(3,)`, `(3,)`, `(1,)`, and this schema is identical across all
four sources (the group names are fixed by the common output
structure). -/
theorem step_map_fn_uniform_action_schema :
    ∀ (sJ sB sR sT : Step) (oJ oB oR oT : TransformedStep),
      jaco_step_map_fn sJ = some oJ →
      berkeley_cable_routing_step_map_fn sB = some oB →
      bridge_step_map_fn sR = some oR →
      toto_step_map_fn sT = some oT →
      fieldShape sJ.action "world_vector" = some [3] →
      fieldShape sJ.action "terminate_episode" = some [3] →
      fieldShape sJ.action "gripper_closedness_action" = some [1] →
      fieldShape sB.action "world_vector" = some [3] →
      fieldShape sB.action "rotation_delta" = some [3] →
      sB.action.lookup "terminate_episode" = some ⟨[], DType.float32⟩ →
      fieldShape sR.action "world_vector" = some [3] →
      fieldShape sR.action "rotation_delta" = some [3] →
      fieldShape sR.action "open_gripper" = some [1] →
      fieldShape sT.action "world_vector" = some [3] →
      fieldShape sT.action "rotation_delta" = some [3] →
      fieldShape sT.action "open_gripper" = some [1] →
      (actionTriple oJ =
        (⟨[3], DType.float32⟩, ⟨[3], DType.float32⟩, ⟨[1], DType.float32⟩) ∧
       actionTriple oB =
        (⟨[3], DType.float32⟩, ⟨[3], DType.float32⟩, ⟨[1], DType.float32⟩) ∧
       actionTriple oR =
        (⟨[3], DType.float32⟩, ⟨[3], DType.float32⟩, ⟨[1], DType.float32⟩) ∧
       actionTriple oT =
        (⟨[3], DType.float32⟩, ⟨[3], DType.float32⟩, ⟨[1], DType.float32⟩) ∧
       actionTriple oJ = actionTriple oB ∧
       actionTriple oB = actionTriple oR ∧
       actionTriple oR = actionTriple oT) := by
  intro sJ sB sR sT oJ oB oR oT hJ hB hR hT h1 h2 h3 h4 h5 h6 h7 h8 h9 h10 h11 h12
  have hj : actionTriple oJ =
      (⟨[3], DType.float32⟩, ⟨[3], DType.float32⟩, ⟨[1], DType.float32⟩) := by
    cases him : map_image sJ.image <;>
      cases hwv : sJ.action.lookup "world_vector" <;>
        cases hte : sJ.action.lookup "terminate_episode" <;>
          cases hgc : sJ.action.lookup "gripper_closedness_action" <;>
            simp only [jaco_step_map_fn, him, hwv, hte, hgc,
              Option.some.injEq, reduceCtorEq] at hJ
    rename_i img wv te gc
    simp only [fieldShape, hwv, Option.map_some', Option.some.injEq] at h1
    simp only [fieldShape, hte, Option.map_some', Option.some.injEq] at h2
    simp only [fieldShape, hgc, Option.map_some', Option.some.injEq] at h3
    subst hJ
    simp [actionTriple, tf_cast, h1, h2, h3]
  have hb : actionTriple oB =
      (⟨[3], DType.float32⟩, ⟨[3], DType.float32⟩, ⟨[1], DType.float32⟩) := by
    cases him : map_image sB.image <;>
      cases hwv : sB.action.lookup "world_vector" <;>
        cases hrd : sB.action.lookup "rotation_delta" <;>
          simp only [berkeley_cable_routing_step_map_fn, him, hwv, hrd, h6,
            Option.some.injEq, reduceCtorEq] at hB
    rename_i img wv rd
    have hresh : tf_reshape (⟨[], DType.float32⟩ : Tensor) [1] =
        some ⟨[1], DType.float32⟩ := rfl
    rw [hresh] at hB
    simp only [Option.some.injEq] at hB
    simp only [fieldShape, hwv, Option.map_some', Option.some.injEq] at h4
    simp only [fieldShape, hrd, Option.map_some', Option.some.injEq] at h5
    subst hB
    simp [actionTriple, tf_cast, h4, h5]
  have hr : actionTriple oR =
      (⟨[3], DType.float32⟩, ⟨[3], DType.float32⟩, ⟨[1], DType.float32⟩) := by
    cases him : map_image sR.image <;>
      cases hwv : sR.action.lookup "world_vector" <;>
        cases hrd : sR.action.lookup "rotation_delta" <;>
          cases hog : sR.action.lookup "open_gripper" <;>
            simp only [bridge_step_map_fn, him, hwv, hrd, hog,
              Option.some.injEq, reduceCtorEq] at hR
    rename_i img wv rd og
    simp only [fieldShape, hwv, Option.map_some', Option.some.injEq] at h7
    simp only [fieldShape, hrd, Option.map_some', Option.some.injEq] at h8
    simp only [fieldShape, hog, Option.map_some', Option.some.injEq] at h9
    subst hR
    simp [actionTriple, tf_cast, h7, h8, h9]
  have ht : actionTriple oT =
      (⟨[3], DType.float32⟩, ⟨[3], DType.float32⟩, ⟨[1], DType.float32⟩) := by
    cases him : map_image sT.image <;>
      cases hwv : sT.action.lookup "world_vector" <;>
        cases hrd : sT.action.lookup "rotation_delta" <;>
          cases hog : sT.action.lookup "open_gripper" <;>
            simp only [toto_step_map_fn, him, hwv, hrd, hog,
              Option.some.injEq, reduceCtorEq] at hT
    rename_i img wv rd og
    simp only [fieldShape, hwv, Option.map_some', Option.some.injEq] at h10
    simp only [fieldShape, hrd, Option.map_some', Option.some.injEq] at h11
    simp only [fieldShape, hog, Option.map_some', Option.some.injEq] at h12
    subst hT
    simp [actionTriple, tf_cast, h10, h11, h12]
  exact ⟨hj, hb, hr, ht, by rw [hj, hb], by rw [hb, hr], by rw [hr, ht]⟩

/-- Witness for claim C1: the four sample steps map to outputs whose
three action groups all have the common float32 `(3,)/(3,)/(1,)`
schema. -/
theorem step_map_fn_uniform_action_schema_witness :
    jaco_step_map_fn sampleJacoStep =
      some ⟨⟨[3, 128, 160], DType.uint8⟩, ⟨[512], DType.float32⟩,
            ⟨[3], DType.float32⟩, ⟨[3], DType.float32⟩, ⟨[1], DType.float32⟩,
            true, false, false⟩ ∧
    (actionTriple ⟨⟨[3, 128, 160], DType.uint8⟩, ⟨[512], DType.float32⟩,
        ⟨[3], DType.float32⟩, ⟨[3], DType.float32⟩, ⟨[1], DType.float32⟩,
        true, false, false⟩ =
      (⟨[3], DType.float32⟩, ⟨[3], DType.float32⟩, ⟨[1], DType.float32⟩) ∧
     actionTriple ⟨⟨[3, 128, 160], DType.uint8⟩, ⟨[512], DType.float32⟩,
        ⟨[3], DType.float32⟩, ⟨[3], DType.float32⟩, ⟨[1], DType.float32⟩,
        false, false, false⟩ =
      (⟨[3], DType.float32⟩, ⟨[3], DType.float32⟩, ⟨[1], DType.float32⟩) ∧
     actionTriple ⟨⟨[3, 128, 160], DType.uint8⟩, ⟨[512], DType.float32⟩,
        ⟨[3], DType.float32⟩, ⟨[3], DType.float32⟩, ⟨[1], DType.float32⟩,
        false, true, true⟩ =
      (⟨[3], DType.float32⟩, ⟨[3], DType.float32⟩, ⟨[1], DType.float32⟩) ∧
     actionTriple ⟨⟨[3, 128, 160], DType.uint8⟩, ⟨[512], DType.float32⟩,
        ⟨[3], DType.float32⟩, ⟨[3], DType.float32⟩, ⟨[1], DType.float32⟩,
        false, false, true⟩ =
      (⟨[3], DType.float32⟩, ⟨[3], DType.float32⟩, ⟨[1], DType.float32⟩) ∧
     actionTriple ⟨⟨[3, 128, 160], DType.uint8⟩, ⟨[512], DType.float32⟩,
        ⟨[3], DType.float32⟩, ⟨[3], DType.float32⟩, ⟨[1], DType.float32⟩,
        true, false, false⟩ =
      actionTriple ⟨⟨[3, 128, 160], DType.uint8⟩, ⟨[512], DType.float32⟩,
        ⟨[3], DType.float32⟩, ⟨[3], DType.float32⟩, ⟨[1], DType.float32⟩,
        false, false, false⟩ ∧
     actionTriple ⟨⟨[3, 128, 160], DType.uint8⟩, ⟨[512], DType.float32⟩,
        ⟨[3], DType.float32⟩, ⟨[3], DType.float32⟩, ⟨[1], DType.float32⟩,
        false, false, false⟩ =
      actionTriple ⟨⟨[3, 128, 160], DType.uint8⟩, ⟨[512], DType.float32⟩,
        ⟨[3], DType.float32⟩, ⟨[3], DType.float32⟩, ⟨[1], DType.float32⟩,
        false, true, true⟩ ∧
     actionTriple ⟨⟨[3, 128, 160], DType.uint8⟩, ⟨[512], DType.float32⟩,
        ⟨[3], DType.float32⟩, ⟨[3], DType.float32⟩, ⟨[1], DType.float32⟩,
        false, true, true⟩ =
      actionTriple ⟨⟨[3, 128, 160], DType.uint8⟩, ⟨[512], DType.float32⟩,
        ⟨[3], DType.float32⟩, ⟨[3], DType.float32⟩, ⟨[1], DType.float32⟩,
        false, false, true⟩) :=
  ⟨by decide,
    step_map_fn_uniform_action_schema sampleJacoStep sampleBerkeleyStep
      sampleBridgeStep sampleTotoStep _ _ _ _
      (by decide) (by decide) (by decide) (by decide)
      (by decide) (by decide) (by decide) (by decide) (by decide) (by decide)
      (by decide) (by decide) (by decide) (by decide) (by decide) (by decide)⟩

/-- Case analysis on membership in the batch-loop trace: only training
steps and (on the main process) scalar logs occur there. -/
theorem mem_batchTrace_cases {isMain : Bool} {e nb : Nat} {ev : Ev}
    (h : ev ∈ batchTrace isMain e nb) :
    (∃ i, ev = Ev.batch e i) ∨ ((∃ tag, ev = Ev.logScalar tag e) ∧ isMain = true) := by
  simp only [batchTrace, List.mem_flatMap] at h
  obtain ⟨i, hi, hmem⟩ := h
  rcases List.mem_cons.mp hmem with h1 | h2
  · exact Or.inl ⟨i, h1⟩
  · cases isMain
    · simp at h2
    · simp only [if_true, List.mem_cons, List.not_mem_nil, or_false] at h2
      rcases h2 with h2 | h2 | h2 <;> exact Or.inr ⟨⟨_, h2⟩, rfl⟩

/-- A checkpoint-write event occurs in an epoch trace exactly on the
main process, at epochs hitting the `val_interval` condition, with the
canonical path and bundle. -/
theorem save_mem_epochTrace_iff (dist isMain : Bool) (vi nb : Nat) (L R : String)
    (mS oS sS : Nat → List (String × Int)) (e : Nat) (p : String)
    (b : List (String × CkptVal)) :
    Ev.save p b ∈ epochTrace dist isMain vi nb L R mS oS sS e ↔
      (isMain = true ∧ (e + 1) % vi = 0 ∧ p = ckptPath L R e ∧
       b = mkCheckpoint (mS e) (oS e) (sS e) e) := by
  constructor
  · intro h
    simp only [epochTrace, List.mem_append] at h
    rcases h with h | h | h
    · rcases mem_batchTrace_cases h with ⟨i, hi⟩ | ⟨⟨tag, ht⟩, _⟩
      · simp at hi
      · simp at ht
    · by_cases hvi : (e + 1) % vi = 0
      · rw [if_pos hvi] at h
        simp only [List.mem_append] at h
        rcases h with h | h
        · cases isMain
          · simp at h
          · simp only [if_true, List.mem_singleton, Ev.save.injEq] at h
            exact ⟨rfl, hvi, h.1, h.2⟩
        · cases dist <;> simp at h
      · rw [if_neg hvi] at h
        simp at h
    · simp at h
  · rintro ⟨hm, hvi, hp, hb⟩
    subst hm hp hb
    simp [epochTrace, hvi]

/-- A barrier event occurs in an epoch trace exactly in distributed
mode, at epochs hitting the `val_interval` condition. -/
theorem barrier_mem_epochTrace_iff (dist isMain : Bool) (vi nb : Nat) (L R : String)
    (mS oS sS : Nat → List (String × Int)) (e x : Nat) :
    Ev.barrier x ∈ epochTrace dist isMain vi nb L R mS oS sS e ↔
      (dist = true ∧ (e + 1) % vi = 0 ∧ x = e) := by
  constructor
  · intro h
    simp only [epochTrace, List.mem_append] at h
    rcases h with h | h | h
    · rcases mem_batchTrace_cases h with ⟨i, hi⟩ | ⟨⟨tag, ht⟩, _⟩
      · simp at hi
      · simp at ht
    · by_cases hvi : (e + 1) % vi = 0
      · rw [if_pos hvi] at h
        simp only [List.mem_append] at h
        rcases h with h | h
        · cases isMain <;> simp at h
        · cases dist
          · simp at h
          · simp only [if_true, List.mem_cons, List.not_mem_nil, or_false,
              Ev.barrier.injEq] at h
            rcases h with h | h <;> exact ⟨rfl, hvi, h⟩
      · rw [if_neg hvi] at h
        simp at h
    · simp at h
  · rintro ⟨hd, hvi, hx⟩
    subst hd hx
    simp [epochTrace, hvi]

/-- Scalar-log events only occur on the main process. -/
theorem log_mem_epochTrace_main (dist isMain : Bool) (vi nb : Nat) (L R : String)
    (mS oS sS : Nat → List (String × Int)) (e : Nat) (tag : String) (y : Nat)
    (h : Ev.logScalar tag y ∈ epochTrace dist isMain vi nb L R mS oS sS e) :
    isMain = true := by
  simp only [epochTrace, List.mem_append] at h
  rcases h with h | h | h
  · rcases mem_batchTrace_cases h with ⟨i, hi⟩ | ⟨_, hm⟩
    · simp at hi
    · exact hm
  · by_cases hvi : (e + 1) % vi = 0
    · rw [if_pos hvi] at h
      simp only [List.mem_append] at h
      rcases h with h | h
      · cases isMain <;> simp at h
      · cases dist <;> simp at h
    · rw [if_neg hvi] at h
      simp at h
  · simp at h

/-- On the main process in distributed mode, the checkpoint write
precedes the barrier within the epoch trace. -/
theorem save_precedes_barrier (vi nb : Nat) (L R : String)
    (mS oS sS : Nat → List (String × Int)) (e : Nat) (hvi : (e + 1) % vi = 0) :
    List.Sublist
      [Ev.save (ckptPath L R e) (mkCheckpoint (mS e) (oS e) (sS e) e), Ev.barrier e]
      (epochTrace true true vi nb L R mS oS sS e) := by
  rw [epochTrace, if_pos hvi]
  refine List.Sublist.trans ?_ (List.sublist_append_right _ _)
  simp only [if_true, List.append_assoc, List.singleton_append, List.cons_append]
  exact (((List.nil_sublist _).cons _).cons₂ _).cons₂ _

/-- Two checkpoint bundles agree only if their stored epochs agree. -/
theorem mkCheckpoint_epoch_inj {m o s m2 o2 s2 : List (String × Int)} {e e2 : Nat}
    (h : mkCheckpoint m o s e = mkCheckpoint m2 o2 s2 e2) : e = e2 := by
  simp [mkCheckpoint] at h
  exact h.2.2.2

/-- Membership from an index lookup in an event trace. -/
theorem ev_mem_of_getElem? {l : List Ev} {n : Nat} {a : Ev} (h : l[n]? = some a) : a ∈ l := by
  rw [List.getElem?_eq_some] at h
  obtain ⟨hn, he⟩ := h
  exact he ▸ List.getElem_mem hn

/-- On the main process in distributed mode, a checkpoint epoch's trace
decomposes as the batch loop (with all its logging) followed by the
checkpoint write, the two barriers and the scheduler step. -/
theorem epochTrace_ckpt_block (vi nb : Nat) (L R : String)
    (mS oS sS : Nat → List (String × Int)) (e : Nat) (hcond : (e + 1) % vi = 0) :
    epochTrace true true vi nb L R mS oS sS e =
      batchTrace true e nb ++
        [Ev.save (ckptPath L R e) (mkCheckpoint (mS e) (oS e) (sS e) e),
         Ev.barrier e, Ev.barrier e, Ev.sched e] := by
  rw [epochTrace, if_pos hcond]
  simp

/-- Counterexample for claim C4 as stated: in distributed mode with
`val_interval = 2`, the trace of epoch 0 contains no barrier event at
all — the barrier calls sit inside the `(e + 1) % val_interval == 0`
block, so processes do not synchronize at every epoch boundary. -/
theorem distributed_sync_cex :
    (epochTrace true true 2 1 "logs" "run1"
        (fun _ => []) (fun _ => []) (fun _ => []) 0).all
      (fun ev => !ev.isBarrier) = true := by decide

/-- Claim C4 (amended): in distributed mode, barriers occur in an
epoch's trace exactly when `(e + 1)` is a multiple of `val_interval`;
checkpoint writes and scalar logging happen only on the elected main
process; and at such checkpoint epochs the main process finishes both
its checkpoint write and all of its metric logging for the epoch before
the barrier on which the other processes block: in its event order the
write precedes the barrier, every log event precedes every barrier, and
every write precedes every barrier. -/
theorem distributed_sync_and_master_only_io :
    ∀ (dist isMain : Bool) (vi nb : Nat) (L R : String)
      (mS oS sS : Nat → List (String × Int)) (e x : Nat),
      0 < vi →
      ((Ev.barrier x ∈ epochTrace dist isMain vi nb L R mS oS sS e) ↔
        (dist = true ∧ (e + 1) % vi = 0 ∧ x = e)) ∧
      (∀ p b, Ev.save p b ∈ epochTrace dist isMain vi nb L R mS oS sS e →
        isMain = true) ∧
      (∀ tag y, Ev.logScalar tag y ∈ epochTrace dist isMain vi nb L R mS oS sS e →
        isMain = true) ∧
      (dist = true → isMain = true → (e + 1) % vi = 0 →
        List.Sublist
          [Ev.save (ckptPath L R e) (mkCheckpoint (mS e) (oS e) (sS e) e), Ev.barrier e]
          (epochTrace dist isMain vi nb L R mS oS sS e)) ∧
      (dist = true → isMain = true → (e + 1) % vi = 0 →
        (∀ (i j y : Nat) (tag : String),
          (epochTrace dist isMain vi nb L R mS oS sS e)[i]? = some (Ev.logScalar tag y) →
          (epochTrace dist isMain vi nb L R mS oS sS e)[j]? = some (Ev.barrier e) →
          i < j) ∧
        (∀ (i j : Nat) (p : String) (b : List (String × CkptVal)),
          (epochTrace dist isMain vi nb L R mS oS sS e)[i]? = some (Ev.save p b) →
          (epochTrace dist isMain vi nb L R mS oS sS e)[j]? = some (Ev.barrier e) →
          i < j)) := by
  intro dist isMain vi nb L R mS oS sS e x _
  refine ⟨barrier_mem_epochTrace_iff dist isMain vi nb L R mS oS sS e x,
    fun p b h => ((save_mem_epochTrace_iff dist isMain vi nb L R mS oS sS e p b).mp h).1,
    fun tag y h => log_mem_epochTrace_main dist isMain vi nb L R mS oS sS e tag y h,
    fun hd hm hcond => ?_, fun hd hm hcond => ?_⟩
  · subst hd hm
    exact save_precedes_barrier vi nb L R mS oS sS e hcond
  · subst hd hm
    rw [epochTrace_ckpt_block vi nb L R mS oS sS e hcond]
    constructor
    · intro i j y tag hi hj
      have hjlen : (batchTrace true e nb).length ≤ j := by
        by_contra hlt
        push_neg at hlt
        rw [List.getElem?_append_left hlt] at hj
        rcases mem_batchTrace_cases (ev_mem_of_getElem? hj) with ⟨_, h⟩ | ⟨⟨_, h⟩, _⟩ <;>
          simp at h
      have hilen : i < (batchTrace true e nb).length := by
        by_contra hge
        push_neg at hge
        rw [List.getElem?_append_right hge] at hi
        rcases hk : i - (batchTrace true e nb).length with _ | _ | _ | _ | k <;>
          rw [hk] at hi <;> simp at hi
      omega
    · intro i j p b hi hj
      have hjlen : (batchTrace true e nb).length ≤ j := by
        by_contra hlt
        push_neg at hlt
        rw [List.getElem?_append_left hlt] at hj
        rcases mem_batchTrace_cases (ev_mem_of_getElem? hj) with ⟨_, h⟩ | ⟨⟨_, h⟩, _⟩ <;>
          simp at h
      have hilen : (batchTrace true e nb).length ≤ i := by
        by_contra hlt
        push_neg at hlt
        rw [List.getElem?_append_left hlt] at hi
        rcases mem_batchTrace_cases (ev_mem_of_getElem? hi) with ⟨_, h⟩ | ⟨⟨_, h⟩, _⟩ <;>
          simp at h
      have hj1 : 1 ≤ j - (batchTrace true e nb).length := by
        rw [List.getElem?_append_right hjlen] at hj
        rcases hk : j - (batchTrace true e nb).length with _ | k
        · rw [hk] at hj
          simp at hj
        · omega
      have hi0 : i - (batchTrace true e nb).length = 0 := by
        rw [List.getElem?_append_right hilen] at hi
        rcases hk : i - (batchTrace true e nb).length with _ | _ | _ | _ | k
        · rfl
        · rw [hk] at hi
          simp at hi
        · rw [hk] at hi
          simp at hi
        · rw [hk] at hi
          simp at hi
        · rw [hk] at hi
          simp at hi
      omega

/-- Witness for claim C4: concrete distributed main-process epoch
trace with `val_interval = 1`. -/
theorem distributed_sync_and_master_only_io_witness :
    0 < 1 ∧
    (((Ev.barrier 0 ∈ epochTrace true true 1 1 "logs" "run1"
        (fun _ => []) (fun _ => []) (fun _ => []) 0) ↔
      (true = true ∧ (0 + 1) % 1 = 0 ∧ 0 = 0)) ∧
     (∀ p b, Ev.save p b ∈ epochTrace true true 1 1 "logs" "run1"
        (fun _ => []) (fun _ => []) (fun _ => []) 0 → true = true) ∧
     (∀ tag y, Ev.logScalar tag y ∈ epochTrace true true 1 1 "logs" "run1"
        (fun _ => []) (fun _ => []) (fun _ => []) 0 → true = true) ∧
     (true = true → true = true → (0 + 1) % 1 = 0 →
       List.Sublist
         [Ev.save (ckptPath "logs" "run1" 0) (mkCheckpoint [] [] [] 0), Ev.barrier 0]
         (epochTrace true true 1 1 "logs" "run1"
           (fun _ => []) (fun _ => []) (fun _ => []) 0)) ∧
     (true = true → true = true → (0 + 1) % 1 = 0 →
       (∀ (i j y : Nat) (tag : String),
         (epochTrace true true 1 1 "logs" "run1"
           (fun _ => []) (fun _ => []) (fun _ => []) 0)[i]? =
             some (Ev.logScalar tag y) →
         (epochTrace true true 1 1 "logs" "run1"
           (fun _ => []) (fun _ => []) (fun _ => []) 0)[j]? = some (Ev.barrier 0) →
         i < j) ∧
       (∀ (i j : Nat) (p : String) (b : List (String × CkptVal)),
         (epochTrace true true 1 1 "logs" "run1"
           (fun _ => []) (fun _ => []) (fun _ => []) 0)[i]? = some (Ev.save p b) →
         (epochTrace true true 1 1 "logs" "run1"
           (fun _ => []) (fun _ => []) (fun _ => []) 0)[j]? = some (Ev.barrier 0) →
         i < j))) :=
  ⟨by decide,
    distributed_sync_and_master_only_io true true 1 1 "logs" "run1"
      (fun _ => []) (fun _ => []) (fun _ => []) 0 0 (by decide)⟩

/-- Claim C5: on the (main) process trace of `Trainer.train`,
checkpoint writes occur exactly at the iterated epochs `e` with
`(e + 1)` a multiple of `val_interval`, every write uses the path
`<log_dir>/<run_id>/<e>-checkpoint.pth` and the bundle built at epoch
`e`, and the bundle has exactly the keys `model_state_dict`,
`optimizer_state_dict`, `scheduler_state_dict`, `epoch`, with the epoch
entry equal to `e`. -/
theorem checkpoint_schedule_keys_and_path :
    ∀ (dist : Bool) (vi nb : Nat) (L R : String) (mS oS sS : Nat → List (String × Int))
      (resume : Bool) (c E e : Nat),
      0 < vi →
      ((Ev.save (ckptPath L R e) (mkCheckpoint (mS e) (oS e) (sS e) e) ∈
          trainTrace dist true vi nb L R mS oS sS resume c E) ↔
        (e ∈ epochsIterated resume c E ∧ (e + 1) % vi = 0)) ∧
      (∀ p b, Ev.save p b ∈ trainTrace dist true vi nb L R mS oS sS resume c E →
        ∃ e0, e0 ∈ epochsIterated resume c E ∧ (e0 + 1) % vi = 0 ∧
          p = ckptPath L R e0 ∧ b = mkCheckpoint (mS e0) (oS e0) (sS e0) e0) ∧
      ((mkCheckpoint (mS e) (oS e) (sS e) e).map Prod.fst =
        ["model_state_dict", "optimizer_state_dict", "scheduler_state_dict", "epoch"]) ∧
      ((mkCheckpoint (mS e) (oS e) (sS e) e).lookup "epoch" = some (CkptVal.ep e)) := by
  intro dist vi nb L R mS oS sS resume c E e _
  refine ⟨⟨?_, ?_⟩, ?_, rfl, rfl⟩
  · intro h
    rw [trainTrace, List.mem_flatMap] at h
    obtain ⟨e0, he0, hm⟩ := h
    obtain ⟨-, hvi0, hp, hb⟩ :=
      (save_mem_epochTrace_iff dist true vi nb L R mS oS sS e0 _ _).mp hm
    have he : e = e0 := mkCheckpoint_epoch_inj hb
    subst he
    exact ⟨he0, hvi0⟩
  · rintro ⟨he, hvi0⟩
    rw [trainTrace, List.mem_flatMap]
    exact ⟨e, he,
      (save_mem_epochTrace_iff dist true vi nb L R mS oS sS e _ _).mpr
        ⟨rfl, hvi0, rfl, rfl⟩⟩
  · intro p b h
    rw [trainTrace, List.mem_flatMap] at h
    obtain ⟨e0, he0, hm⟩ := h
    obtain ⟨-, hvi0, hp, hb⟩ :=
      (save_mem_epochTrace_iff dist true vi nb L R mS oS sS e0 p b).mp hm
    exact ⟨e0, he0, hvi0, hp, hb⟩

/-- Witness for claim C5: a one-epoch single-process run with
`val_interval = 1` writes exactly the epoch-0 checkpoint. -/
theorem checkpoint_schedule_keys_and_path_witness :
    0 < 1 ∧
    (((Ev.save (ckptPath "logs" "run1" 0) (mkCheckpoint [] [] [] 0) ∈
        trainTrace false true 1 1 "logs" "run1"
          (fun _ => []) (fun _ => []) (fun _ => []) false 0 1) ↔
      (0 ∈ epochsIterated false 0 1 ∧ (0 + 1) % 1 = 0)) ∧
     (∀ p b, Ev.save p b ∈ trainTrace false true 1 1 "logs" "run1"
        (fun _ => []) (fun _ => []) (fun _ => []) false 0 1 →
       ∃ e0, e0 ∈ epochsIterated false 0 1 ∧ (e0 + 1) % 1 = 0 ∧
         p = ckptPath "logs" "run1" e0 ∧ b = mkCheckpoint [] [] [] e0) ∧
     ((mkCheckpoint [] [] [] 0).map Prod.fst =
       ["model_state_dict", "optimizer_state_dict", "scheduler_state_dict", "epoch"]) ∧
     ((mkCheckpoint [] [] [] 0).lookup "epoch" = some (CkptVal.ep 0))) :=
  ⟨by decide,
    checkpoint_schedule_keys_and_path false 1 1 "logs" "run1"
      (fun _ => []) (fun _ => []) (fun _ => []) false 0 1 0 (by decide)⟩
